import Mathlib

/-!
Verification of the identity/consistency subsystem of the PyPedal pedigree
manager (`pyp_newclasses.py`) against its natural-language specification.

The development shallowly embeds the relevant methods of `NewPedigree` and
`NewAnimal`:

* the pairwise set-algebra scans of `__add__` (union), `__sub__` (difference)
  and `intersection`, including their exact flag bookkeeping and Python list
  indexing (negative indices wrap around);
* `addanimal`, `delanimal`-adjacent map handling, and `updateidmap`;
* the `preprocess` bulk-load loop's handling of the four identity maps and
  the post-loop synthesis of missing-parent records;
* `NewAnimal.pad_id` and the RNG-seeding step of `simulate`.

Python dictionaries are modelled as association lists with overwrite-on-insert
(`dinsert`/`dlookup`), Python lists as Lean lists with `pyIndex` providing
Python's indexing rule (negative indices address from the end, out-of-range
raises, modelled by `Option`). Numeric pedigree formats (the default
`asd` format: integer animal/sire/dam identities) are modelled; the
missing-parent sentinel is `0` (`missing_parent` default) and the default
birth year is `1900` (`missing_byear` default).
-/

/-- Python dictionary lookup: first binding of the key (keys are unique
because insertion overwrites). -/
def dlookup {α β : Type} [BEq α] (d : List (α × β)) (k : α) : Option β :=
  match d with
  | [] => none
  | kv :: rest => if kv.1 == k then some kv.2 else dlookup rest k

/-- Python dictionary assignment `d[k] = v`: overwrite the existing binding
in place, or append a new binding. -/
def dinsert {α β : Type} [BEq α] (k : α) (v : β) (d : List (α × β)) :
    List (α × β) :=
  match d with
  | [] => [(k, v)]
  | kv :: rest => if kv.1 == k then (k, v) :: rest else kv :: dinsert k v rest

/-- Values view of a Python dictionary (`d.values()`). -/
def dvalues {α β : Type} (d : List (α × β)) : List β := d.map (·.2)

/-- Keys view of a Python dictionary (`list(d.keys())`). -/
def dkeys {α β : Type} (d : List (α × β)) : List α := d.map (·.1)

/-- Python `max()` over a list: `ValueError` (modelled as `none`) on an empty
sequence. -/
def pymax : List Nat → Option Nat
  | [] => none
  | x :: xs => some (xs.foldl Nat.max x)

/-- Python list subscription `l[i]` for an integer index: non-negative
indices address from the front, negative indices wrap around from the end,
anything out of range raises `IndexError` (modelled as `none`). -/
def pyIndex {α : Type} (l : List α) (i : Int) : Option α :=
  if 0 ≤ i then l.get? i.toNat
  else if (l.length : Int) + i < 0 then none
  else l.get? ((l.length : Int) + i).toNat

/-- A pedigree record as the set-algebra scans of `NewPedigree.__add__`,
`__sub__` and `intersection` see it, for a renumbered pedigree loaded under a
numeric pedigree format: `originalID` is the identity as read from the file,
`animalID` is the canonical (renumbered) identity, and `sireID`/`damID` hold
the parent's canonical identity, with `0` (the `missing_parent` default)
meaning an unknown parent. -/
structure MRec where
  originalID : Nat
  sireID : Nat
  damID : Nat
  animalID : Nat
deriving DecidableEq, Repr, Inhabited

/-- Match-rule field codes used by the merge engine: animal identity
(code a), sire (code s) and dam (code d). -/
inductive MatchCode where
  | ident
  | sire
  | dam
deriving DecidableEq, Repr

/-- Per-candidate write flags (`ped_to_write`), keyed by `animalID`. -/
abbrev Flags := List (Nat × Bool)

/-- Mismatch contribution of one match-rule code for a pair `(a, b)` in
`NewPedigree.__add__` (source lines 415-470). For the sire and dam codes the
source first evaluates `self.pedigree[a.sireID] != self.kw[missing_parent]`
(and likewise for `b`): subscripting a renumbered pedigree with a valid index
yields a `NewAnimal` object, which never equals the integer sentinel `0`, so
whenever the subscripts do not raise the comparison always takes the
both-parents-known branch and compares
`self.pedigree[a.sireID - 1].originalID` with
`other.pedigree[b.sireID - 1].originalID` (for a missing parent `sireID = 0`
the index `-1` wraps to the LAST record). A subscript out of range raises
`IndexError`, modelled by `none`. -/
def addCodeMismatch (pa pb : List MRec) (a b : MRec) :
    MatchCode → Option Nat
  | .ident => some (if a.originalID ≠ b.originalID then 1 else 0)
  | .sire => do
    let _ ← pyIndex pa (a.sireID : Int)
    let _ ← pyIndex pb (b.sireID : Int)
    let x ← pyIndex pa ((a.sireID : Int) - 1)
    let y ← pyIndex pb ((b.sireID : Int) - 1)
    some (if x.originalID ≠ y.originalID then 1 else 0)
  | .dam => do
    let _ ← pyIndex pa (a.damID : Int)
    let _ ← pyIndex pb (b.damID : Int)
    let x ← pyIndex pa ((a.damID : Int) - 1)
    let y ← pyIndex pb ((b.damID : Int) - 1)
    some (if x.originalID ≠ y.originalID then 1 else 0)

/-- Total `mismatches` accumulated over the match rule for one pair `(a, b)`
in `NewPedigree.__add__` (the counter is reset for every pair there, source
line 412). -/
def addPairMismatches (pa pb : List MRec) (a b : MRec)
    (rule : List MatchCode) : Option Nat :=
  rule.foldlM (fun acc c => (addCodeMismatch pa pb a b c).map (acc + ·)) 0

/-- Inner loop of the `__add__` scan for a fixed record `a` (source lines
411-492): for every `b` the per-pair mismatch count is computed and
`ped_to_write[b][b.animalID]` is assigned `False` on zero mismatches and
`True` otherwise — overwriting whatever an earlier `a` iteration recorded. -/
def addScanInner (pa pb : List MRec) (rule : List MatchCode) (a : MRec) :
    List MRec → Flags → Option Flags
  | [], fb => some fb
  | b :: rest, fb => do
    let m ← addPairMismatches pa pb a b rule
    addScanInner pa pb rule a rest (dinsert b.animalID (decide (m ≠ 0)) fb)

/-- Outer loop of the `__add__` scan (source lines 409-492):
`ped_to_write[a][a.animalID] = True` for every record of `self`, then the
inner loop over `other`. -/
def addScanOuter (pa pb : List MRec) (rule : List MatchCode) :
    List MRec → Flags → Flags → Option (Flags × Flags)
  | [], fa, fb => some (fa, fb)
  | a :: rest, fa, fb => do
    let fb2 ← addScanInner pa pb rule a pb fb
    addScanOuter pa pb rule rest (dinsert a.animalID true fa) fb2

/-- Duplicate-detection scan of `NewPedigree.__add__` on two renumbered
pedigrees: the resulting write flags for the records of `self` and of
`other`. -/
def addScan (pa pb : List MRec) (rule : List MatchCode) :
    Option (Flags × Flags) :=
  addScanOuter pa pb rule pa [] []

/-- Number of flag entries set to `True`. -/
def countTrue (f : Flags) : Nat := (f.filter (·.2)).length

/-- Number of records the merged pedigree of `NewPedigree.__add__` is built
from: records of `self` and of `other` whose write flag is `True` are
serialized and reloaded (source lines 506-530). For founder-only records with
pairwise distinct original identities the reload adds no missing-parent
records, so this is exactly the size of the union pedigree. -/
def unionCount (pa pb : List MRec) (rule : List MatchCode) : Option Nat :=
  (addScan pa pb rule).map (fun p => countTrue p.1 + countTrue p.2)

/-- Mismatch contribution of one code for a pair in `NewPedigree.__sub__`
(source lines 591-604): unlike `__add__` there is no missing-parent test at
all, the parents' original identities are compared through
`pedigree[sireID - 1]` directly (index `-1` wraps to the last record). -/
def subCodeMismatch (pa pb : List MRec) (a b : MRec) :
    MatchCode → Option Nat
  | .ident => some (if a.originalID ≠ b.originalID then 1 else 0)
  | .sire => do
    let x ← pyIndex pa ((a.sireID : Int) - 1)
    let y ← pyIndex pb ((b.sireID : Int) - 1)
    some (if x.originalID ≠ y.originalID then 1 else 0)
  | .dam => do
    let x ← pyIndex pa ((a.damID : Int) - 1)
    let y ← pyIndex pb ((b.damID : Int) - 1)
    some (if x.originalID ≠ y.originalID then 1 else 0)

/-- Mismatches contributed by one pair `(a, b)` over the whole match rule in
`NewPedigree.__sub__`. -/
def subPairMismatches (pa pb : List MRec) (a b : MRec)
    (rule : List MatchCode) : Option Nat :=
  rule.foldlM (fun acc c => (subCodeMismatch pa pb a b c).map (acc + ·)) 0

/-- Inner loop of the `__sub__` scan (source lines 581-604): every `b` gets
`ped_to_write[b][b.animalID] = False`, and the mismatch counter — initialized
ONCE before both loops (source line 578, the reset at line 583 is commented
out) — keeps accumulating across all pairs. -/
def subScanInner (pa pb : List MRec) (rule : List MatchCode) (a : MRec) :
    List MRec → Flags → Nat → Option (Flags × Nat)
  | [], fb, mis => some (fb, mis)
  | b :: rest, fb, mis => do
    let m ← subPairMismatches pa pb a b rule
    subScanInner pa pb rule a rest (dinsert b.animalID false fb) (mis + m)

/-- Outer loop of the `__sub__` scan (source lines 579-604). -/
def subScanOuter (pa pb : List MRec) (rule : List MatchCode) :
    List MRec → Flags → Flags → Nat → Option (Flags × Flags × Nat)
  | [], fa, fb, mis => some (fa, fb, mis)
  | a :: rest, fa, fb, mis => do
    let r ← subScanInner pa pb rule a pb fb mis
    subScanOuter pa pb rule rest (dinsert a.animalID true fa) r.1 r.2

/-- Scan of `NewPedigree.__sub__` (source lines 577-616): after BOTH loops
finish, the single accumulated mismatch counter is inspected once (lines
610-616 are indented at the level of the outer `for`): on zero total
mismatches the LAST record of `self` is unflagged, otherwise the LAST record
of `other` is flagged `True`. The loop variables leak out of the loops;
referencing them when a pedigree is empty raises `NameError` (`none`). -/
def subScan (pa pb : List MRec) (rule : List MatchCode) :
    Option (Flags × Flags) := do
  let r ← subScanOuter pa pb rule pa [] [] 0
  if r.2.2 = 0 then do
    let a ← pa.getLast?
    some (dinsert a.animalID false r.1, r.2.1)
  else do
    let b ← pb.getLast?
    some (r.1, dinsert b.animalID true r.2.1)

/-- Number of records written for the difference pedigree by
`NewPedigree.__sub__`: flagged records of `self` are written, and flagged
records of `other` are APPENDED to the same file (source lines 630-633). -/
def subCount (pa pb : List MRec) (rule : List MatchCode) : Option Nat :=
  (subScan pa pb rule).map (fun p => countTrue p.1 + countTrue p.2)

/-- Modelled from the spec: the corrected difference semantics the claim
states (mismatch counter reset for every pair; a record of A is dropped iff
SOME record of B is a zero-mismatch duplicate of it under the match rule). -/
def specSubCount (pa pb : List MRec) (rule : List MatchCode) : Nat :=
  (pa.filter (fun a =>
    ¬ pb.any (fun b => subPairMismatches pa pb a b rule == some 0))).length

/-- Match contribution of one code for a pair in `NewPedigree.intersection`
(source lines 718-739): equalities are counted, again through
`pedigree[sireID - 1]` with the wrap-around for missing parents. -/
def interCodeMatch (pa pb : List MRec) (a b : MRec) :
    MatchCode → Option Nat
  | .ident => some (if a.originalID = b.originalID then 1 else 0)
  | .sire => do
    let x ← pyIndex pa ((a.sireID : Int) - 1)
    let y ← pyIndex pb ((b.sireID : Int) - 1)
    some (if x.originalID = y.originalID then 1 else 0)
  | .dam => do
    let x ← pyIndex pa ((a.damID : Int) - 1)
    let y ← pyIndex pb ((b.damID : Int) - 1)
    some (if x.originalID = y.originalID then 1 else 0)

/-- Match count over the whole rule for one pair in
`NewPedigree.intersection` (`matches` is reset per pair, source line 710). -/
def interPairMatches (pa pb : List MRec) (a b : MRec)
    (rule : List MatchCode) : Option Nat :=
  rule.foldlM (fun acc c => (interCodeMatch pa pb a b c).map (acc + ·)) 0

/-- Value the variable `matches` holds when `NewPedigree.intersection`
finally tests it: the test at source line 743 is indented OUTSIDE the inner
loop, so only the count for the LAST record of `other` survives; every
earlier pair's count is computed and then overwritten. An empty `other`
leaves `matches` unbound (`NameError`, modelled by `none`). -/
def interLastMatches (pa pb : List MRec) (rule : List MatchCode) (a : MRec) :
    List MRec → Option Nat
  | [] => none
  | [b] => interPairMatches pa pb a b rule
  | b :: b2 :: rest => do
    let _ ← interPairMatches pa pb a b rule
    interLastMatches pa pb rule a (b2 :: rest)

/-- Scan of `NewPedigree.intersection` (source lines 707-745): the retained
records of `self`, in order — a record `a` is appended to
`animals_to_write` iff the surviving `matches` value equals the length of
the match rule. -/
def interScan (pa pb : List MRec) (rule : List MatchCode) :
    List MRec → Option (List MRec)
  | [] => some []
  | a :: rest => do
    let m ← interLastMatches pa pb rule a pb
    let others ← interScan pa pb rule rest
    some (if m = rule.length then a :: others else others)

/-- Number of records `NewPedigree.intersection` writes for the result. -/
def interCount (pa pb : List MRec) (rule : List MatchCode) : Option Nat :=
  (interScan pa pb rule pa).map List.length

/-- Modelled from the spec: the intersection semantics the claim states —
retain `a` iff SOME `b` achieves a full match count equal to the rule
length. -/
def specInterCount (pa pb : List MRec) (rule : List MatchCode) : Nat :=
  (pa.filter (fun a =>
    pb.any (fun b => interPairMatches pa pb a b rule == some rule.length))).length

/-- Founder record constructor for concrete test pedigrees: original
identity o at canonical position n, both parents unknown. -/
def founder (o n : Nat) : MRec := ⟨o, 0, 0, n⟩

/-- Renumbered pedigree with records 1 and 2, both founders. -/
def pedA2 : List MRec := [founder 1 1, founder 2 2]

/-- Renumbered single-record pedigree whose record duplicates record 1 of
pedA2. -/
def pedB1 : List MRec := [founder 1 1]

/-- Renumbered three-founder pedigree (identities 1, 2, 3). -/
def pedA3 : List MRec := [founder 1 1, founder 2 2, founder 3 3]

/-- Renumbered four-founder pedigree disjoint from pedA3 by identity. -/
def pedB4 : List MRec := [founder 4 1, founder 5 2, founder 6 3, founder 7 4]

/-- The duplicate-collapse example pedigree A of the specification:
records (1,0,0), (2,0,0), (3,1,2), renumbered in order. -/
def pedAdup : List MRec := [founder 1 1, founder 2 2, ⟨3, 1, 2, 3⟩]

/-- The duplicate-collapse example pedigree B of the specification:
records (1,0,0), (2,0,0), (3,1,2), (4,3,0), renumbered in order. -/
def pedBdup : List MRec :=
  [founder 1 1, founder 2 2, ⟨3, 1, 2, 3⟩, ⟨4, 3, 0, 4⟩]

/-- Renumbered single-founder pedigree (identity 1). -/
def pedA1 : List MRec := [founder 1 1]

/-- Renumbered pedigree with founders 1 and 2; its FIRST record duplicates
the sole record of pedA1. -/
def pedB2 : List MRec := [founder 1 1, founder 2 2]

/-- C1. Union of two renumbered pedigrees under a match rule. The code keeps
every record of A, and for the match-rule-identity case with disjoint
3- and 4-record pedigrees the union does have 7 records; but a record b of B
is NOT retained iff no record of A is a zero-mismatch duplicate of b: the
per-candidate flag is overwritten on every iteration of the outer loop, so
only the comparison against the FINAL record of A decides. Evaluations: for
A = founders 1,2 and B = founder 1 with rule (identity), B's record
duplicates A's record 1 yet its flag ends `true` and the union keeps 3
records (the claim demands 2); the disjoint 3+4 case gives 7 as claimed; the
specification's duplicate-collapse example gives 6 records instead of the
demanded 4. -/
theorem union_scan_keeps_duplicate_of_nonfinal_record :
    unionCount pedA2 pedB1 [MatchCode.ident] = some 3
    ∧ dlookup ((addScan pedA2 pedB1 [MatchCode.ident]).getD ([], [])).2 1
        = some true
    ∧ unionCount pedA3 pedB4 [MatchCode.ident] = some 7
    ∧ unionCount pedAdup pedBdup
        [MatchCode.ident, MatchCode.sire, MatchCode.dam] = some 6 := by
  decide

/-- C2. Difference of two renumbered pedigrees with per-pair mismatch
resetting: a record a of A should be dropped iff some record b of B is a
zero-mismatch duplicate of a. The code instead accumulates the mismatch
counter over ALL pairs and inspects it once, outside both loops. Evaluations:
for A = founders 1,2 and B = founder 1 with rule (identity) the corrected
semantics keep exactly 1 record (A's record 2), but the code writes 3 records
(both records of A, including the duplicate, plus B's record); on the
specification's duplicate-collapse example (A contained in B) the code writes
4 records instead of 0. -/
theorem sub_scan_counter_persists_across_pairs :
    subCount pedA2 pedB1 [MatchCode.ident] = some 3
    ∧ specSubCount pedA2 pedB1 [MatchCode.ident] = 1
    ∧ subCount pedAdup pedBdup
        [MatchCode.ident, MatchCode.sire, MatchCode.dam] = some 4 := by
  decide

/-- C3. Intersection of two renumbered pedigrees: a record a of A should be
retained iff SOME record b of B achieves a match count equal to the rule
length. The code computes the per-pair match count inside the inner loop but
tests it only after that loop ends, so only the count against the LAST record
of B decides. Evaluations: for A = founder 1 and B = founders 1,2 with rule
(identity), record 1 of A fully matches record 1 of B, yet the code retains
nothing (the exists-semantics retain 1 record); on the specification's
duplicate-collapse example the code retains 0 records instead of the demanded
3. -/
theorem intersection_scan_tests_only_last_candidate :
    interCount pedA1 pedB2 [MatchCode.ident] = some 0
    ∧ specInterCount pedA1 pedB2 [MatchCode.ident] = 1
    ∧ interCount pedAdup pedBdup
        [MatchCode.ident, MatchCode.sire, MatchCode.dam] = some 0 := by
  decide

/-- An animal record of class NewAnimal, restricted to the attributes the
container-maintenance methods manipulate, for a numeric pedigree format
(default format asd): `animalID` and `originalID` are parsed integers,
`sireID`/`damID` are `0` (the `missing_parent` default) or a parent identity,
`renumberedID` is `-999` until assigned (NewAnimal sets it at source line
2836), and `name` is the string form of the animal identity (no name column
in the format, source line 2740). -/
structure Animal where
  animalID : Nat
  originalID : Nat
  sireID : Nat
  damID : Nat
  renumberedID : Int
  name : String
deriving DecidableEq, Repr

instance : Inhabited Animal := ⟨⟨0, 0, 0, 0, -999, ""⟩⟩

/-- A NewPedigree container: the ordered record sequence and the four
identity maps (`idmap` identity-to-canonical, `backmap`
canonical-to-identity, `namemap` name-to-identity, `namebackmap`
identity-to-name). -/
structure PedState where
  pedigree : List Animal
  idmap : List (Nat × Nat)
  backmap : List (Int × Nat)
  namemap : List (String × Nat)
  namebackmap : List (Nat × String)
deriving DecidableEq, Repr

/-- NewPedigree.updateidmap (source lines 2170-2196) for animal_type new:
all four maps are reassigned to fresh empty dictionaries and rebuilt by one
pass over the record sequence, binding `idmap[originalID] = animalID`,
`backmap[renumberedID] = originalID`, `namemap[name] = originalID` and
`namebackmap[originalID] = name` for every record. -/
def updateidmap (s : PedState) : PedState :=
  { s with
    idmap := s.pedigree.foldl
      (fun m a => dinsert a.originalID a.animalID m) [],
    backmap := s.pedigree.foldl
      (fun m a => dinsert a.renumberedID a.originalID m) [],
    namemap := s.pedigree.foldl
      (fun m a => dinsert a.name a.originalID m) [],
    namebackmap := s.pedigree.foldl
      (fun m a => dinsert a.originalID a.name m) [] }

/-- Mutation of the final record of a list (the Python code appends the new
NewAnimal object and then assigns to its attributes through the alias `an`,
so the stored record changes in place). -/
def applyLast {α : Type} (f : α → α) : List α → List α
  | [] => []
  | [a] => [f a]
  | a :: b :: rest => a :: applyLast f (b :: rest)

/-- NewPedigree.addanimal (source lines 2070-2135) for a numeric pedigree
format: the new NewAnimal is built from the identity triple (a field equal
to the `missing_parent` sentinel `0` stays `0`, source lines 2743-2781) and
appended to the record sequence; then, still inside the `try` block, the new
canonical identity `max(idmap.values()) + 1` is assigned, the sire and dam
identities are resolved through `idmap`, and the four maps gain the new
record's bindings. Any failing step (an empty `idmap` under `max()`, or a
parent identity absent from `idmap`) jumps to the bare `except`, which
returns `0` — but the mutations already made, including the `append`, are
kept. Returns the `_added` flag together with the resulting container
state. -/
def addanimal (s : PedState) (animalID sireID damID : Nat) :
    Nat × PedState :=
  let an : Animal :=
    { animalID := animalID, originalID := animalID,
      sireID := sireID, damID := damID,
      renumberedID := -999, name := toString animalID }
  let s1 := { s with pedigree := s.pedigree ++ [an] }
  match pymax (dvalues s.idmap) with
  | none => (0, s1)
  | some m =>
    let fnum := fun a : Animal =>
      { a with animalID := m + 1, renumberedID := ((m + 1 : Nat) : Int) }
    let s2 := { s1 with pedigree := applyLast fnum s1.pedigree }
    match dlookup s.idmap sireID with
    | none => (0, s2)
    | some sr =>
      let fsire := fun a : Animal => { a with sireID := sr }
      let s3 := { s2 with pedigree := applyLast fsire s2.pedigree }
      match dlookup s.idmap damID with
      | none => (0, s3)
      | some dr =>
        let fdam := fun a : Animal => { a with damID := dr }
        let s4 := { s3 with pedigree := applyLast fdam s3.pedigree }
        (1, { s4 with
              idmap := dinsert animalID (m + 1) s4.idmap,
              backmap := dinsert ((m + 1 : Nat) : Int) animalID s4.backmap,
              namemap := dinsert (toString animalID) animalID s4.namemap,
              namebackmap := dinsert animalID (toString animalID)
                s4.namebackmap })

/-- Topological invariant I1 of the specification: position in the record
sequence is canonical identity minus one, and every known parent's canonical
identity is strictly below its child's canonical identity (position i+1);
the missing-parent sentinel 0 satisfies this trivially. -/
def I1 (p : List Animal) : Prop :=
  ∀ i, i < p.length →
    (p.getD i default).sireID < i + 1 ∧ (p.getD i default).damID < i + 1

instance (p : List Animal) : Decidable (I1 p) := by
  unfold I1; infer_instance

/-- Canonical identity of the most recently appended record. -/
def lastAnimalID (s : PedState) : Option Nat :=
  s.pedigree.getLast?.map Animal.animalID

theorem applyLast_concat {α : Type} (f : α → α) (xs : List α) (x : α) :
    applyLast f (xs ++ [x]) = xs ++ [f x] := by
  induction xs with
  | nil => rfl
  | cons a xs ih =>
    cases xs with
    | nil => rfl
    | cons b xs2 =>
      show a :: applyLast f ((b :: xs2) ++ [x]) = a :: ((b :: xs2) ++ [f x])
      rw [ih]

theorem dlookup_mem {α β : Type} [BEq α] [LawfulBEq α]
    (d : List (α × β)) (k : α) (v : β) (h : dlookup d k = some v) :
    (k, v) ∈ d := by
  induction d with
  | nil => simp [dlookup] at h
  | cons kv rest ih =>
    obtain ⟨k1, v1⟩ := kv
    unfold dlookup at h
    by_cases hk : k1 == k
    · have hk2 : k1 = k := eq_of_beq hk
      simp only [hk2, beq_self_eq_true, if_true] at h
      have hv : v1 = v := by injection h
      rw [hk2, hv]
      exact List.mem_cons_self _ _
    · simp only [hk, if_false, Bool.false_eq_true] at h
      exact List.mem_cons_of_mem _ (ih h)

/-- Renumbered two-founder container used as a concrete instance: records at
canonical positions 1 and 2, all four maps coherent. -/
def sDemo : PedState :=
  { pedigree :=
      [{ animalID := 1, originalID := 1, sireID := 0, damID := 0,
         renumberedID := 1, name := "1" },
       { animalID := 2, originalID := 2, sireID := 0, damID := 0,
         renumberedID := 2, name := "2" }],
    idmap := [(1, 1), (2, 2)],
    backmap := [(1, 1), (2, 2)],
    namemap := [("1", 1), ("2", 2)],
    namebackmap := [(1, "1"), (2, "2")] }

/-- C4. For a renumbered container whose identity map is coherent (every
mapped canonical identity is a valid position and their maximum is the
record count, which is what holds after renumber and updateidmap), a
successful addanimal call assigns the newly appended record the canonical
identity max(existing canonical identities) + 1 = N + 1, and the topological
invariant I1 is preserved: the resolved sire and dam identities are existing
canonical identities, hence strictly below the new record's canonical
position. -/
theorem addanimal_success_assigns_max_plus_one_and_preserves_I1
    (s : PedState) (animalID sireID damID : Nat)
    (hI1 : I1 s.pedigree)
    (hbound : ∀ kv ∈ s.idmap, kv.2 ≤ s.pedigree.length)
    (hmax : pymax (dvalues s.idmap) = some s.pedigree.length)
    (hsucc : (addanimal s animalID sireID damID).1 = 1) :
    lastAnimalID (addanimal s animalID sireID damID).2
      = some (s.pedigree.length + 1)
    ∧ I1 (addanimal s animalID sireID damID).2.pedigree := by
  rcases h1 : dlookup s.idmap sireID with _ | sr
  · simp [addanimal, hmax, h1] at hsucc
  rcases h2 : dlookup s.idmap damID with _ | dr
  · simp [addanimal, hmax, h1, h2] at hsucc
  have hsr : sr ≤ s.pedigree.length := hbound _ (dlookup_mem _ _ _ h1)
  have hdr : dr ≤ s.pedigree.length := hbound _ (dlookup_mem _ _ _ h2)
  simp only [addanimal, hmax, h1, h2]
  rw [applyLast_concat, applyLast_concat, applyLast_concat]
  constructor
  · simp [lastAnimalID, List.getLast?_concat]
  · intro i hi
    simp only [List.length_append, List.length_singleton] at hi
    rcases Nat.lt_or_ge i s.pedigree.length with hlt | hge
    · rw [List.getD_append _ _ _ _ hlt]
      exact hI1 i hlt
    · have hieq : i = s.pedigree.length := by omega
      subst hieq
      rw [List.getD_append_right _ _ _ _ hge]
      simp
      omega

/-- Closed instance of the C4 theorem: adding animal 3 with sire 1 and dam 2
to the coherent two-founder container succeeds, receives canonical identity
3 = max(1, 2) + 1, and the resulting three-record sequence satisfies I1. -/
theorem addanimal_success_witness :
    lastAnimalID (addanimal sDemo 3 1 2).2 = some 3
    ∧ I1 (addanimal sDemo 3 1 2).2.pedigree :=
  addanimal_success_assigns_max_plus_one_and_preserves_I1 sDemo 3 1 2
    (by decide) (by decide) (by decide) (by decide)

/-- C5 counterexample. Calling addanimal with a sire identity (7) that does
not resolve through the identity map of the two-founder container returns 0
as the claim states, but it is NOT a no-op on the container state: the new
record was appended to the record sequence before the failing lookup and
stays there. -/
theorem addanimal_failure_not_a_noop :
    (addanimal sDemo 4 7 0).1 = 0
    ∧ (addanimal sDemo 4 7 0).2.pedigree ≠ sDemo.pedigree := by decide

/-- C5 as amended. When a sire or dam identity does not resolve through the
container's identity map, addanimal reports failure by returning 0 and
leaves all four maps unchanged, but the record sequence has already been
extended by the new record (the append precedes the failing lookup inside
the try block), so the sequence grows by one record. -/
theorem addanimal_unresolved_parent_fails_with_maps_unchanged
    (s : PedState) (animalID sireID damID : Nat)
    (h : dlookup s.idmap sireID = none ∨ dlookup s.idmap damID = none) :
    (addanimal s animalID sireID damID).1 = 0
    ∧ (addanimal s animalID sireID damID).2.idmap = s.idmap
    ∧ (addanimal s animalID sireID damID).2.backmap = s.backmap
    ∧ (addanimal s animalID sireID damID).2.namemap = s.namemap
    ∧ (addanimal s animalID sireID damID).2.namebackmap = s.namebackmap
    ∧ (addanimal s animalID sireID damID).2.pedigree.length
        = s.pedigree.length + 1 := by
  rcases h0 : pymax (dvalues s.idmap) with _ | m
  · simp [addanimal, h0]
  rcases h1 : dlookup s.idmap sireID with _ | sr
  · simp [addanimal, h0, h1, applyLast_concat]
  rcases h2 : dlookup s.idmap damID with _ | dr
  · simp [addanimal, h0, h1, h2, applyLast_concat]
  · rcases h with hna | hna <;> simp [h1, h2] at hna

/-- Closed instance of the amended C5 theorem at the two-founder container
with unresolvable sire identity 7. -/
theorem addanimal_unresolved_parent_witness :
    (addanimal sDemo 4 7 0).1 = 0
    ∧ (addanimal sDemo 4 7 0).2.idmap = sDemo.idmap
    ∧ (addanimal sDemo 4 7 0).2.backmap = sDemo.backmap
    ∧ (addanimal sDemo 4 7 0).2.namemap = sDemo.namemap
    ∧ (addanimal sDemo 4 7 0).2.namebackmap = sDemo.namebackmap
    ∧ (addanimal sDemo 4 7 0).2.pedigree.length
        = sDemo.pedigree.length + 1 :=
  addanimal_unresolved_parent_fails_with_maps_unchanged sDemo 4 7 0
    (Or.inl (by decide))

/-- C6. updateidmap clears and rebuilds all four maps purely from the current
record sequence: its result depends only on the record sequence (so repeated
calls never accumulate stale entries from earlier map contents), and it is
idempotent — applying it twice yields exactly the state obtained by applying
it once. -/
theorem updateidmap_pure_and_idempotent (s t : PedState)
    (h : t.pedigree = s.pedigree) :
    updateidmap t = updateidmap s
    ∧ updateidmap (updateidmap s) = updateidmap s := by
  have key : ∀ u v : PedState, v.pedigree = u.pedigree →
      updateidmap v = updateidmap u := by
    intro u v hv
    cases u
    cases v
    simp_all [updateidmap]
  exact ⟨key s t h, key s (updateidmap s) rfl⟩

/-- Closed instance of the C6 theorem: stale map entries in the two-founder
container are discarded by updateidmap, and a second call changes nothing. -/
theorem updateidmap_witness :
    updateidmap { sDemo with idmap := [(9, 9)] } = updateidmap sDemo
    ∧ updateidmap (updateidmap sDemo) = updateidmap sDemo :=
  updateidmap_pure_and_idempotent sDemo { sDemo with idmap := [(9, 9)] } rfl

/-- NewAnimal.pad_id (source lines 3110-3124): with l the number of digits
of the animal identity and pl = 15 - l - 1, the returned string is the birth
year, then pl zeros (when pl is positive), then the identity, then the digit
count l, each rendered by Python %s formatting. -/
def pad_id (byYear animalID : Nat) : String :=
  let l := (Nat.repr animalID).length
  let pl : Int := 15 - l - 1
  if 0 < pl then
    Nat.repr byYear ++ String.mk (List.replicate pl.toNat '0')
      ++ Nat.repr animalID ++ Nat.repr l
  else
    Nat.repr byYear ++ Nat.repr animalID ++ Nat.repr l

/-- C7 counterexample. For animal identity 1 (1 digit, within the claim's
13-digit bound) and the default birth year 1900, pad_id returns a 19-character
string, not a 15-character one; and the length is not even constant over the
claimed range, since a 10-digit identity yields 20 characters. -/
theorem pad_id_length_is_not_fifteen :
    (Nat.repr 1).length ≤ 13
    ∧ (pad_id 1900 1).length = 19
    ∧ (Nat.repr 1234567890).length ≤ 13
    ∧ (pad_id 1900 1234567890).length = 20 := by decide

/-- C7 as amended. For every animal whose identity has at most 9 digits, the
string returned by pad_id has constant length: the number of digits of the
birth year plus 15 (the zero padding, identity and digit count together
always occupy exactly 15 characters), hence 19 characters for a 4-digit
birth year; identities of 10 to 13 digits take one character more because
the digit count is rendered with two characters. -/
theorem pad_id_length_constant_up_to_nine_digits (byYear n : Nat)
    (h : (Nat.repr n).length ≤ 9) :
    (pad_id byYear n).length = (Nat.repr byYear).length + 15 := by
  unfold pad_id
  have hcond : (0 : Int) < 15 - (Nat.repr n).length - 1 := by
    have h9 : ((Nat.repr n).length : Int) ≤ 9 := by exact_mod_cast h
    omega
  rw [if_pos hcond]
  have hrepr1 : (Nat.repr ((Nat.repr n).length)).length = 1 := by
    interval_cases h : (Nat.repr n).length <;> rfl
  simp only [String.length_append]
  have hmk : (String.mk (List.replicate (15 - ((Nat.repr n).length : Int)
      - 1).toNat '0')).length = 14 - (Nat.repr n).length := by
    have htn : ((15 : Int) - (Nat.repr n).length - 1).toNat
        = 14 - (Nat.repr n).length := by omega
    have hlen : ∀ cs : List Char, (String.mk cs).length = cs.length :=
      fun cs => rfl
    rw [hlen, List.length_replicate, htn]
  rw [hmk, hrepr1]
  omega

/-- Closed instance of the amended C7 theorem at birth year 1900 and the
3-digit identity 123: the result has 4 + 15 = 19 characters. -/
theorem pad_id_length_witness :
    (Nat.repr 123).length ≤ 9
    ∧ (pad_id 1900 123).length = (Nat.repr 1900).length + 15 :=
  ⟨by decide, pad_id_length_constant_up_to_nine_digits 1900 123 (by decide)⟩

/-- A Python value as far as the + operator in the seeding step cares:
an integer or a string. -/
inductive PyVal where
  | int (n : Int)
  | str (s : String)
deriving DecidableEq, Repr

/-- Python + on these values: concatenation on two strings, addition on two
integers, and a TypeError on a mixed application. -/
def pyAdd : PyVal → PyVal → Except String PyVal
  | .str a, .str b => .ok (.str (a ++ b))
  | .int a, .int b => .ok (.int (a + b))
  | _, _ => .error "TypeError"

/-- RNG-seeding step of NewPedigree.simulate (source lines 2344-2352).
simulate_seed has been coerced to an integer at source line 2253; on a
truthy (non-zero) seed the generator is seeded with it, otherwise with
int(time.time()); in BOTH branches the subsequent logging call builds its
message by string concatenation with the integer seed
(a quoted message + seed + a final period), not by %-formatting. The value
returned is the seed actually passed to the generator. -/
def seedRNG (simulateSeed wallClockTime : Int) : Except String Int :=
  if simulateSeed ≠ 0 then
    match pyAdd
        (.str "Seeded the random number generator with the value ")
        (.int simulateSeed) with
    | .error e => .error e
    | .ok m =>
      match pyAdd m (.str ".") with
      | .error e => .error e
      | .ok _ => .ok simulateSeed
  else
    match pyAdd
        (.str "Seeded the random number generator with the value ")
        (.int wallClockTime) with
    | .error e => .error e
    | .ok m =>
      match pyAdd m (.str ".") with
      | .error e => .error e
      | .ok _ => .ok wallClockTime

/-- C8. The seeding step never completes normally in either mode: whether a
seed is configured (non-zero) or not, the log-message concatenation of a
string with the integer seed raises TypeError right after the generator is
seeded, so the configured-seed reproducible mode and the wall-clock mode are
both unreachable as normal completions. -/
theorem simulate_seeding_raises_in_both_modes
    (simulateSeed wallClockTime : Int) :
    seedRNG simulateSeed wallClockTime = Except.error "TypeError" := by
  unfold seedRNG
  split <;> rfl

/-- Positional-parameter count of NewPedigree.__add__
(self, other, filename=False, debug_load=False), source line 377. -/
def addParamCount : Nat := 4

/-- Number of those parameters lacking a default (self and other). -/
def addRequiredCount : Nat := 2

/-- Number of positional arguments the body of NewPedigree.union supplies to
__add__ (source line 671): the bound receiver plus the four explicit
arguments self, other, filename, debug_load. -/
def unionArgCount : Nat := 5

/-- Outcome of a Python call: a returned value or a raised exception. -/
inductive PyOutcome (α : Type) where
  | returns (val : α)
  | raises (exc : String)
deriving DecidableEq, Repr

/-- Python positional-argument binding: a call raises TypeError when it
supplies more positional arguments than the method has parameters, or fewer
than the count of parameters without defaults; otherwise the body runs. -/
def callMethod {α : Type} (nParams nRequired nArgs : Nat)
    (body : PyOutcome α) : PyOutcome α :=
  if nParams < nArgs then .raises "TypeError"
  else if nArgs < nRequired then .raises "TypeError"
  else body

/-- NewPedigree.union (source lines 667-671): its body evaluates
self.__add__(self, other, filename, debug_load) — five positional arguments
against the four parameters of __add__ — discards the result, and falls off
the end (which in Python would return None, modelled by `returns none`). -/
def union {α : Type} (addBody : PyOutcome α) : PyOutcome (Option α) :=
  match callMethod addParamCount addRequiredCount unionArgCount addBody with
  | .raises e => .raises e
  | .returns _ => .returns none

/-- C9 counterexample. union does not return None: even when __add__ would
return a merged pedigree normally, the call itself raises TypeError because
it binds five positional arguments to a method accepting at most four. -/
theorem union_does_not_return_none :
    union (PyOutcome.returns 1) ≠ PyOutcome.returns (none : Option Nat)
    ∧ union (PyOutcome.returns 1) = PyOutcome.raises "TypeError" := by
  decide

/-- C9 as amended. For every behavior of __add__, the public union method
raises TypeError — the explicit extra leading self makes the call pass five
positional arguments to the four-parameter __add__ — so callers never
receive the merged pedigree (nor None: the call raises before the body could
run or the result be discarded). -/
theorem union_always_raises_type_error {α : Type} (addBody : PyOutcome α) :
    union addBody = PyOutcome.raises "TypeError" := rfl

/-- One well-formed data line of a numeric asd pedigree file: animal, sire
and dam identity fields, with 0 the missing-parent code. -/
structure RawLine where
  animal : Nat
  sire : Nat
  dam : Nat
deriving DecidableEq, Repr

/-- Container state during NewPedigree.preprocess: the record sequence, the
four identity maps, and the temporary sire/dam dictionaries used afterwards
to synthesize records for parents without their own data line. -/
structure LoadState where
  pedigree : List Animal
  idmap : List (Nat × Nat)
  backmap : List (Int × Nat)
  namemap : List (String × Nat)
  namebackmap : List (Nat × String)
  sires : List (Nat × Nat)
  dams : List (Nat × Nat)
deriving DecidableEq, Repr

/-- The NewAnimal built from one data line under the numeric asd format:
identities are parsed integers, the name is the string form of the animal
identity, a parent field equal to the missing code stays 0 and renumberedID
starts at its -999 sentinel. -/
def lineAnimal (ln : RawLine) : Animal :=
  { animalID := ln.animal, originalID := ln.animal,
    sireID := ln.sire, damID := ln.dam,
    renumberedID := -999, name := toString ln.animal }

/-- Body of the per-line loop of NewPedigree.preprocess for one well-formed
data line (source lines 1766-1847, numeric asd format, animal_type new).
The name maps are reassigned to FRESH EMPTY dictionaries first (lines
1767-1768); non-missing sire and dam identities are recorded in the
temporary dictionaries (lines 1811-1823); the record is appended and all
four maps receive its bindings (lines 1826, 1843-1847) — but the name maps,
having just been wiped, end the iteration holding only this line's entry. -/
def processLine (st : LoadState) (ln : RawLine) : LoadState :=
  let namemap0 : List (String × Nat) := []
  let namebackmap0 : List (Nat × String) := []
  let an := lineAnimal ln
  { st with
    pedigree := st.pedigree ++ [an],
    idmap := dinsert an.animalID an.animalID st.idmap,
    backmap := dinsert ((an.animalID : Nat) : Int) an.animalID st.backmap,
    namemap := dinsert an.name an.animalID namemap0,
    namebackmap := dinsert an.animalID an.name namebackmap0,
    sires := if an.sireID ≠ 0 then dinsert an.sireID an.sireID st.sires
             else st.sires,
    dams := if an.damID ≠ 0 then dinsert an.damID an.damID st.dams
            else st.dams }

/-- Founder record NewPedigree.preprocess synthesizes for a parent identity
that has no data line of its own: both parents missing, name the string form
of the identity. -/
def synthAnimal (p : Nat) : Animal :=
  { animalID := p, originalID := p, sireID := 0, damID := 0,
    renumberedID := -999, name := toString p }

/-- Post-loop synthesis of one missing parent in NewPedigree.preprocess
(source lines 1872-1905): if the recorded parent identity is not a key of
idmap and differs from the missing code, a founder record for it is
appended and all four maps (the name maps included, this time without any
reset) receive its bindings. -/
def addMissingParent (st : LoadState) (p : Nat) : LoadState :=
  match dlookup st.idmap p with
  | some _ => st
  | none =>
    if p ≠ 0 then
      { st with
        pedigree := st.pedigree ++ [synthAnimal p],
        idmap := dinsert p p st.idmap,
        backmap := dinsert ((p : Nat) : Int) p st.backmap,
        namemap := dinsert (synthAnimal p).name p st.namemap,
        namebackmap := dinsert p (synthAnimal p).name st.namebackmap }
    else st

/-- Empty container state at the start of a bulk load. -/
def emptyLoadState : LoadState := ⟨[], [], [], [], [], [], []⟩

/-- NewPedigree.preprocess on a stream of well-formed numeric asd data
lines: the per-line loop, then the synthesis pass over the recorded sire
keys, then over the recorded dam keys (which sees the sires already
synthesized through idmap). -/
def preprocess (lines : List RawLine) : LoadState :=
  let st1 := lines.foldl processLine emptyLoadState
  let st2 := (dkeys st1.sires).foldl addMissingParent st1
  (dkeys st2.dams).foldl addMissingParent st2

theorem processLine_foldl_namemap (lines : List RawLine) (last : RawLine)
    (h : lines.getLast? = some last) :
    ∀ st : LoadState,
      (lines.foldl processLine st).namemap
        = [(toString last.animal, last.animal)]
      ∧ (lines.foldl processLine st).namebackmap
        = [(last.animal, toString last.animal)]
      ∧ (lines.foldl processLine st).pedigree.length
        = st.pedigree.length + lines.length := by
  induction lines with
  | nil => simp at h
  | cons l rest ih =>
    intro st
    cases rest with
    | nil =>
      simp only [List.getLast?_singleton, Option.some.injEq] at h
      subst h
      simp [processLine, lineAnimal, dinsert]
    | cons r rs =>
      rw [List.getLast?_cons_cons] at h
      have ih2 := ih h (processLine st l)
      simp only [List.foldl_cons]
      refine ⟨ih2.1, ih2.2.1, ?_⟩
      have h3 := ih2.2.2
      simp only [List.foldl_cons] at h3
      rw [h3]
      simp [processLine]
      omega

theorem addMissingParent_foldl_namemap (ks : List Nat) :
    ∀ st : LoadState, ∃ recs : List Animal,
      (ks.foldl addMissingParent st).pedigree = st.pedigree ++ recs
      ∧ (ks.foldl addMissingParent st).namemap
        = recs.foldl (fun m a => dinsert a.name a.animalID m) st.namemap
      ∧ (ks.foldl addMissingParent st).namebackmap
        = recs.foldl (fun m a => dinsert a.animalID a.name m)
            st.namebackmap := by
  induction ks with
  | nil =>
    intro st
    exact ⟨[], by simp⟩
  | cons k ks ih =>
    intro st
    rcases hl : dlookup st.idmap k with _ | v
    · by_cases hk : k ≠ 0
      · obtain ⟨recs, h1, h2, h3⟩ := ih (addMissingParent st k)
        refine ⟨synthAnimal k :: recs, ?_, ?_, ?_⟩
        · rw [List.foldl_cons, h1]
          simp [addMissingParent, synthAnimal, hl, hk]
        · rw [List.foldl_cons, h2]
          simp [addMissingParent, synthAnimal, hl, hk]
        · rw [List.foldl_cons, h3]
          simp [addMissingParent, synthAnimal, hl, hk]
      · obtain ⟨recs, h1, h2, h3⟩ := ih (addMissingParent st k)
        refine ⟨recs, ?_, ?_, ?_⟩
        · rw [List.foldl_cons, h1]
          simp [addMissingParent, hl, hk]
        · rw [List.foldl_cons, h2]
          simp [addMissingParent, hl, hk]
        · rw [List.foldl_cons, h3]
          simp [addMissingParent, hl, hk]
    · obtain ⟨recs, h1, h2, h3⟩ := ih (addMissingParent st k)
      refine ⟨recs, ?_, ?_, ?_⟩
      · rw [List.foldl_cons, h1]
        simp [addMissingParent, hl]
      · rw [List.foldl_cons, h2]
        simp [addMissingParent, hl]
      · rw [List.foldl_cons, h3]
        simp [addMissingParent, hl]

/-- C10. During a bulk load of a nonempty stream of well-formed data lines,
preprocess reassigns the name maps to empty dictionaries on every parsed
line, so the final name maps index only the LAST-parsed record plus the
synthesized missing-parent records (exactly the records appended after
position lines.length): namemap is the singleton for the last record with
the synthesized records' bindings folded on top, and likewise namebackmap —
they are not a coherent index of the whole record sequence. -/
theorem preprocess_name_maps_only_last_and_synthesized
    (lines : List RawLine) (last : RawLine)
    (h : lines.getLast? = some last) :
    (preprocess lines).namemap
      = ((preprocess lines).pedigree.drop lines.length).foldl
          (fun m a => dinsert a.name a.animalID m)
          [(toString last.animal, last.animal)]
    ∧ (preprocess lines).namebackmap
      = ((preprocess lines).pedigree.drop lines.length).foldl
          (fun m a => dinsert a.animalID a.name m)
          [(last.animal, toString last.animal)] := by
  obtain ⟨hm, hb, hlen⟩ := processLine_foldl_namemap lines last h emptyLoadState
  set st1 := lines.foldl processLine emptyLoadState with hst1
  obtain ⟨recs1, p1, q1, r1⟩ :=
    addMissingParent_foldl_namemap (dkeys st1.sires) st1
  set st2 := (dkeys st1.sires).foldl addMissingParent st1 with hst2
  obtain ⟨recs2, p2, q2, r2⟩ :=
    addMissingParent_foldl_namemap (dkeys st2.dams) st2
  have hpre : preprocess lines = (dkeys st2.dams).foldl addMissingParent st2 :=
    rfl
  have hlen1 : st1.pedigree.length = lines.length := by
    simp [emptyLoadState] at hlen
    exact hlen
  have hped : (preprocess lines).pedigree
      = st1.pedigree ++ (recs1 ++ recs2) := by
    rw [hpre, p2, p1, List.append_assoc]
  have hdrop : (preprocess lines).pedigree.drop lines.length
      = recs1 ++ recs2 := by
    rw [hped, ← hlen1, List.drop_left]
  constructor
  · rw [hdrop, hpre, q2, q1, hm, List.foldl_append]
  · rw [hdrop, hpre, r2, r1, hb, List.foldl_append]

/-- Bulk-load input used as a concrete instance: three well-formed lines
whose third record names sire 1 (which has its own line) and dam 9 (which
does not and gets synthesized). -/
def demoLines : List RawLine := [⟨1, 0, 0⟩, ⟨2, 0, 0⟩, ⟨3, 1, 9⟩]

/-- Closed instance of the C10 theorem: after loading the three demo lines,
the name maps hold only the entry for the last record (animal 3) plus the
entries of the synthesized missing-dam record (animal 9). -/
theorem preprocess_name_maps_witness :
    (preprocess demoLines).namemap
      = ((preprocess demoLines).pedigree.drop demoLines.length).foldl
          (fun m a => dinsert a.name a.animalID m) [(toString 3, 3)]
    ∧ (preprocess demoLines).namebackmap
      = ((preprocess demoLines).pedigree.drop demoLines.length).foldl
          (fun m a => dinsert a.animalID a.name m) [(3, toString 3)] :=
  preprocess_name_maps_only_last_and_synthesized demoLines ⟨3, 1, 9⟩ rfl
